import Mathlib

/-!
Verification development for the Algorand Playground repository.

The repository is a TestNet wallet playground: a React frontend
(`frontend/src/pages/*.tsx`, `frontend/src/services/api.ts`) calling a set
of serverless backend functions.  The frontend and the documentation are in
the source tree; the Python backend (`api/`, `utils/`, `scripts/`) is not,
so the backend operations (balance computation, account recovery,
transaction building, confirmation waiting, status and history queries) are
modelled from the specification, while the frontend handlers and the API
client are embedded directly from the TypeScript source.
-/

namespace AlgorandPlayground

/-! ## JavaScript truthiness helpers

The frontend guards rendering and branching on JavaScript truthiness of
optional strings and numbers: `undefined`, the empty string and the number
zero are falsy. -/

/-- Truthiness of a possibly-absent JavaScript string: absent and `""` are falsy. -/
def jsTruthyStr : Option String → Bool
  | none => false
  | some s => s ≠ ""

/-- Truthiness of a possibly-absent JavaScript number (here a natural): absent and `0` are falsy. -/
def jsTruthyNat : Option Nat → Bool
  | none => false
  | some n => n ≠ 0

/-- Truthiness of a possibly-absent JavaScript number (here a rational, for
decimal ALGO amounts): absent and `0` are falsy. -/
def jsTruthyRat : Option ℚ → Bool
  | none => false
  | some q => q ≠ 0

/-! ## BalanceCalculator

Modelled from the spec: the balance endpoint's computation lives in the
missing backend (`api/balance.py`); the spec (§4.3) fixes
`available = max(0, total - minBalance)` with all figures reported in both
minor units (microAlgos) and the decimal unit.  The frontend `Balance`
response shape is `frontend/src/services/api.ts` (interface `Balance`). -/

/-- Raw account state as reported by the ledger node at query time:
total balance and network minimum balance in minor units, plus the round
of the snapshot. -/
structure AccountState where
  amountMicroAlgos : Nat
  minBalanceMicroAlgos : Nat
  round : Nat
  deriving Repr, DecidableEq

/-- Modelled from the spec: BalanceCalculator.compute — spendable balance in
minor units, `available = max(0, total - minBalance)`, computed over the
integers. -/
def availableMicroAlgos (st : AccountState) : Int :=
  max 0 ((st.amountMicroAlgos : Int) - (st.minBalanceMicroAlgos : Int))

/-- Balance response at the external boundary, in minor units
(the decimal-unit fields of the `Balance` interface are the exact
conversions of these; the conversion itself is settled separately). -/
structure BalanceFigures where
  totalMicroAlgos : Int
  minBalanceMicroAlgos : Int
  availableMicroAlgos : Int
  round : Nat
  deriving Repr, DecidableEq

/-- Modelled from the spec: the balance query assembles the response from the
raw account state via BalanceCalculator. -/
def computeBalance (st : AccountState) : BalanceFigures :=
  { totalMicroAlgos := (st.amountMicroAlgos : Int)
    minBalanceMicroAlgos := (st.minBalanceMicroAlgos : Int)
    availableMicroAlgos := availableMicroAlgos st
    round := st.round }

/-! ## KeyManager: account recovery

Modelled from the spec: `recoverAccount` lives in the missing backend
(`api/recover-account.py`).  Per §4.1 and §3 it validates that the phrase
has exactly 25 words and that the 25th word matches a checksum computed
over the first 24, then derives the keypair and address deterministically
from the words; either validation failure is `InvalidPhrase`.  The concrete
checksum and key-derivation algorithms (BIP39-style wordlist arithmetic and
ed25519 in the real SDK) are absent from the source; they are stood in for
by concrete deterministic functions of the words, which is all the claims
about recovery depend on. -/

/-- Errors of the recover-account operation. -/
inductive RecoverError where
  | InvalidPhrase
  deriving Repr, DecidableEq

/-- A recovered account: the derived public address (the keypair is
transient and never part of a response). -/
structure Account where
  address : String
  deriving Repr, DecidableEq

/-- Modelled from the spec: a deterministic numeric digest of one mnemonic
word (stand-in for the wordlist index of the missing backend). -/
def wordVal (w : String) : Nat :=
  w.toList.foldl (fun a c => a * 31 + c.toNat) 7

/-- Modelled from the spec: a deterministic digest of a word sequence. -/
def phraseVal (ws : List String) : Nat :=
  ws.foldl (fun a w => a * 131 + wordVal w) 0

/-- Modelled from the spec: the checksum word computed over the first 24
words of a phrase (stand-in for the SDK checksum word). -/
def checksumWord (ws : List String) : String :=
  "cs" ++ toString (phraseVal ws % 2048)

/-- Modelled from the spec: deterministic address derivation from the 24
key-bearing words (stand-in for ed25519 key derivation plus base32
checksummed encoding). -/
def deriveAddress (ws : List String) : String :=
  "ADDR" ++ toString (phraseVal ws)

/-- Accumulating word splitter over the character list: splits on spaces,
dropping empty words. -/
def splitWordsAux : List Char → List Char → List String
  | [], acc => if acc.isEmpty then [] else [String.mk acc.reverse]
  | c :: cs, acc =>
    if c = ' ' then
      (if acc.isEmpty then [] else [String.mk acc.reverse]) ++ splitWordsAux cs []
    else splitWordsAux cs (c :: acc)

/-- Split a mnemonic string into its words, discarding extra whitespace —
how the backend tokenizes the phrase it receives. -/
def phraseWords (phrase : String) : List String :=
  splitWordsAux phrase.toList []

/-- Modelled from the spec: KeyManager.recoverAccount — validates word count
(= 25) and the checksum word before deriving keys; fails with
`InvalidPhrase` if either check fails. -/
def recoverAccount (phrase : String) : Except RecoverError Account :=
  let ws := phraseWords phrase
  if ws.length ≠ 25 then .error .InvalidPhrase
  else if ws.getLast? ≠ some (checksumWord (ws.take 24)) then .error .InvalidPhrase
  else .ok { address := deriveAddress (ws.take 24) }

/-! ## TransactionBuilder

Modelled from the spec: the send-transaction pipeline lives in the missing
backend (`api/send-transaction.py`).  Per §4.4 the builder enforces, as
invariants rather than an ordered procedure: the receiver address must pass
checksum validation (`InvalidAddress`), the amount must be a positive
integer in minor units (`InvalidAmount`, before any network call), the note
is bounded (`NoteTooLong`), and live network parameters are fetched fresh
per build.  Validation is performed before the gateway is consulted, and
the embedding counts gateway calls so that "before any network call" is a
provable statement. -/

/-- A user's transfer intent (§3): sender phrase, receiver address, amount
in minor units, optional note bytes. -/
structure TransferIntent where
  senderPhrase : String
  receiverAddress : String
  amountMicroAlgos : Int
  note : Option (List Nat)
  deriving Repr, DecidableEq

/-- Live network parameters fetched per build (§3). -/
structure NetworkParams where
  minFee : Nat
  genesisId : String
  firstValidRound : Nat
  lastValidRound : Nat
  deriving Repr, DecidableEq

/-- Errors of the build/send pipeline (§6, §7). -/
inductive SendError where
  | InvalidAddress
  | InvalidAmount
  | NoteTooLong
  | InsufficientBalance
  | NetworkUnavailable
  deriving Repr, DecidableEq

/-- Modelled from the spec: address validity — a 58-character checksummed
encoding (§3); the base32 checksum itself is in the missing backend, the
length condition is what the spec states outright. -/
def isValidAddress (a : String) : Bool :=
  a.length = 58

/-- Maximum note length in bytes (the Algorand limit surfaced in the
frontend input as `maxLength={1000}`, bounded per §4.4(d)). -/
def maxNoteBytes : Nat := 1000

/-- An unsigned transaction template produced by the builder. -/
structure TxTemplate where
  receiver : String
  amountMicroAlgos : Int
  note : Option (List Nat)
  fee : Nat
  firstValid : Nat
  lastValid : Nat
  deriving Repr, DecidableEq

/-- Modelled from the spec: TransactionBuilder.build.  The gateway is passed
as the outcome of its `getParams` call; the second component of the result
counts how many gateway calls the build performed, so validation failures
can be shown to happen before any network call. -/
def build (intent : TransferIntent) (getParams : Except SendError NetworkParams) :
    Except SendError TxTemplate × Nat :=
  if intent.amountMicroAlgos ≤ 0 then (.error .InvalidAmount, 0)
  else if ¬ isValidAddress intent.receiverAddress then (.error .InvalidAddress, 0)
  else if (intent.note.map List.length).getD 0 > maxNoteBytes then (.error .NoteTooLong, 0)
  else match getParams with
    | .error _ => (.error .NetworkUnavailable, 1)
    | .ok p =>
      (.ok { receiver := intent.receiverAddress
             amountMicroAlgos := intent.amountMicroAlgos
             note := intent.note
             fee := p.minFee
             firstValid := p.firstValidRound
             lastValid := p.lastValidRound }, 1)

/-! ## HistoryQuery

Modelled from the spec: the history endpoint lives in the missing backend
(`api/transaction-history.py`).  Per §4.2/§4.6 the gateway's
`searchByAddress` returns raw records newest first, and
`history(address, limit)` normalizes them into an ordered sequence of
TransactionRecord, newest first, of length ≤ limit.  The frontend caller
(`TransactionHistory.tsx`, `handleSearch`) requests the history with
`limit = 10`. -/

/-- A raw indexer record as returned by the search service. -/
structure RawRecord where
  id : String
  round : Nat
  sender : String
  receiver : String
  amountMicroAlgos : Nat
  feeMicroAlgos : Nat
  note : String
  deriving Repr, DecidableEq

/-- Normalized transaction record (§3). -/
structure TransactionRecord where
  id : String
  round : Option Nat
  sender : String
  receiver : String
  amountMicroAlgos : Nat
  feeMicroAlgos : Nat
  note : String
  confirmed : Bool
  deriving Repr, DecidableEq

/-- Modelled from the spec: normalization of a raw indexer record — indexer
records are confirmed by construction, carrying their round. -/
def normalizeRecord (r : RawRecord) : TransactionRecord :=
  { id := r.id
    round := some r.round
    sender := r.sender
    receiver := r.receiver
    amountMicroAlgos := r.amountMicroAlgos
    feeMicroAlgos := r.feeMicroAlgos
    note := r.note
    confirmed := true }

/-- "Newest first": rounds are non-increasing along the sequence. -/
def NewestFirstRaw (raw : List RawRecord) : Prop :=
  raw.Pairwise (fun a b => b.round ≤ a.round)

/-- "Newest first" on normalized records. -/
def NewestFirst (recs : List TransactionRecord) : Prop :=
  recs.Pairwise (fun a b => (b.round.getD 0) ≤ (a.round.getD 0))

/-- Modelled from the spec: HistoryQuery.history over the raw records the
gateway returned — keep the first `limit` (newest) records and normalize. -/
def history (raw : List RawRecord) (limit : Nat) : List TransactionRecord :=
  (raw.take limit).map normalizeRecord

/-! ## ConfirmationWaiter

Modelled from the spec: the waiter lives in the missing backend.  Per §4.5
it polls `getPendingOrConfirmed` on a fixed interval after submission,
transitioning to `Confirmed` at the first non-null round and to `TimedOut`
after a bounded number of polling rounds.  `TimedOut` is terminal but not
an error: the send response still carries the transactionId, with
`confirmedRound` absent, matching the frontend result shape
`{ transaction_id, confirmed_round? }` in `SendTransaction.tsx`. -/

/-- Terminal outcome of the confirmation wait (§4.5). -/
inductive WaitOutcome where
  | Confirmed (round : Nat)
  | TimedOut
  deriving Repr, DecidableEq

/-- Modelled from the spec: the poll loop — `poll i` is the gateway's answer
(`confirmedRound | null`) at the i-th polling round; at most `fuel` polls
are made, starting at index `i`. -/
def waitLoop (poll : Nat → Option Nat) : Nat → Nat → WaitOutcome
  | 0, _ => .TimedOut
  | fuel + 1, i =>
    match poll i with
    | some r => .Confirmed r
    | none => waitLoop poll fuel (i + 1)

/-- The send response handed to the caller: the transaction id, and the
confirmation round when one was observed. -/
structure SendResult where
  transactionId : String
  confirmedRound : Option Nat
  deriving Repr, DecidableEq

/-- Modelled from the spec: outcome of submit-then-wait for an already
submitted transaction — the caller is handed the transactionId in both
terminal states; only the round differs. -/
def awaitConfirmation (txId : String) (poll : Nat → Option Nat) (maxPolls : Nat) :
    Except SendError SendResult :=
  match waitLoop poll maxPolls 0 with
  | .Confirmed r => .ok { transactionId := txId, confirmedRound := some r }
  | .TimedOut => .ok { transactionId := txId, confirmedRound := none }

/-! ## API client requests (`frontend/src/services/api.ts`)

The axios client builds each request from a base path and query string; a
GET request is embedded as its method, path and query-parameter list.
`encodeURIComponent` is modelled exactly for ASCII input (unreserved
characters pass through, others are percent-encoded; multibyte UTF-8
expansion is not modelled and not needed by any claim). -/

/-- One hexadecimal digit, uppercase. -/
def hexDigit (n : Nat) : Char :=
  if n < 10 then Char.ofNat (48 + n) else Char.ofNat (55 + n)

/-- Characters `encodeURIComponent` leaves unescaped. -/
def isUnreservedChar (c : Char) : Bool :=
  c.isAlpha || c.isDigit ||
    c ∈ ['-', '_', '.', '!', '~', '*', '\'', '(', ')']

/-- JavaScript `encodeURIComponent`, exact on ASCII input. -/
def encodeURIComponent (s : String) : String :=
  String.mk (List.flatten (s.toList.map fun c =>
    if isUnreservedChar c then [c]
    else ['%', hexDigit (c.toNat / 16 % 16), hexDigit (c.toNat % 16)]))

/-- A structured HTTP request as assembled by the axios client. -/
structure ApiRequest where
  method : String
  path : String
  query : List (String × String)
  deriving Repr, DecidableEq

/-- The request built by `algorandAPI.getTransactionStatus` in
`frontend/src/services/api.ts`: a GET of
`/transaction-status?txid=<encodeURIComponent txid>`. -/
def getTransactionStatusRequest (txid : String) : ApiRequest :=
  { method := "GET"
    path := "/transaction-status"
    query := [("txid", encodeURIComponent txid)] }

/-! ## StatusQuery

Modelled from the spec: the transaction-status handler lives in the missing
backend.  Per §4.6 and §6 it is a pure read projection,
`status(transactionId) → TransactionRecord`, failing `NotFound` when the
network has never seen the id; the response shape
`{confirmed, round?, sender?, receiver?, amountAlgo?}` matches the
frontend `Transaction & { confirmed }` interface in `api.ts`. -/

/-- Error of the status query. -/
inductive StatusError where
  | NotFound
  deriving Repr, DecidableEq

/-- The status response as consumed by `TransactionStatus.tsx`. -/
structure StatusResponse where
  confirmed : Bool
  confirmed_round : Option Nat
  sender : Option String
  receiver : Option String
  amount_algo : Option ℚ
  deriving Repr, DecidableEq

/-- Exact conversion of a minor-unit amount to the decimal unit. -/
def microToAlgo (m : Nat) : ℚ :=
  (m : ℚ) / 1000000

/-- Modelled from the spec: the transaction-status handler over the set of
records the network has seen — NotFound when the id is unknown, otherwise
the record projected into the response shape. -/
def transactionStatus (ledger : List TransactionRecord) (txid : String) :
    Except StatusError StatusResponse :=
  match ledger.find? (fun r => r.id == txid) with
  | none => .error .NotFound
  | some r =>
    .ok { confirmed := r.confirmed
          confirmed_round := r.round
          sender := some r.sender
          receiver := some r.receiver
          amount_algo := some (microToAlgo r.amountMicroAlgos) }

/-! ## SendTransaction page (`frontend/src/pages/SendTransaction.tsx`)

`handleSend` posts the form, then: on `response.success &&
response.transaction_id` it stores the result and clears all four form
fields (`setSenderMnemonic('')` … `setNote('')`); otherwise it sets the
error message (`response.message || 'Transaction failed'`) and leaves the
form untouched. -/

/-- The four controlled form fields of the SendTransaction page. -/
structure SendFormState where
  senderMnemonic : String
  receiverAddress : String
  amount : String
  note : String
  deriving Repr, DecidableEq

/-- The empty form (every field cleared). -/
def emptySendForm : SendFormState :=
  { senderMnemonic := "", receiverAddress := "", amount := "", note := "" }

/-- The send-transaction API response shape consumed by the page. -/
structure SendApiResponse where
  success : Bool
  transaction_id : Option String
  confirmed_round : Option Nat
  message : Option String
  deriving Repr, DecidableEq

/-- The result object stored by the page on success. -/
structure TsxSendResult where
  transaction_id : String
  confirmed_round : Option Nat
  deriving Repr, DecidableEq

/-- Page state after `handleSend` resolves: form fields, error message and
stored result. -/
structure SendPageState where
  form : SendFormState
  error : String
  result : Option TsxSendResult
  deriving Repr, DecidableEq

/-- The response-handling branch of `handleSend`: success with a truthy
`transaction_id` stores the result and clears the form; any other response
keeps the form and shows `response.message || 'Transaction failed'`. -/
def handleSendResponse (form : SendFormState) (resp : SendApiResponse) :
    SendPageState :=
  if resp.success && jsTruthyStr resp.transaction_id then
    { form := emptySendForm
      error := ""
      result := some { transaction_id := resp.transaction_id.getD ""
                       confirmed_round := resp.confirmed_round } }
  else
    { form := form
      error := match resp.message with
               | some m => if m ≠ "" then m else "Transaction failed"
               | none => "Transaction failed"
      result := none }

/-! ## Render guards (`TransactionStatus.tsx`, `TransactionHistory.tsx`)

The result sections render each detail row behind a JavaScript truthiness
guard (`{status.sender && …}`), and the status header is
`status.confirmed ? '✅ Confirmed' : '⏳ Pending'`.  In the history view the
type and round rows are rendered unconditionally, while the receiver and
amount rows are guarded. -/

/-- A guarded helper: a row list that is present exactly when its guard is
truthy. -/
def optRow {α : Type} (b : Bool) (r : α) : List α :=
  if b then [r] else []

/-- A rendered detail row of the TransactionStatus result card. -/
inductive StatusRow where
  | fromRow (s : String)
  | toRow (s : String)
  | amountRow (q : ℚ)
  | roundRow (n : Nat)
  deriving Repr, DecidableEq

/-- The header of the TransactionStatus result card. -/
def renderStatusHeader (st : StatusResponse) : String :=
  if st.confirmed then "✅ Confirmed" else "⏳ Pending"

/-- The detail rows of the TransactionStatus result card, in source order,
each behind its truthiness guard. -/
def renderStatusRows (st : StatusResponse) : List StatusRow :=
  optRow (jsTruthyStr st.sender) (.fromRow (st.sender.getD "")) ++
  optRow (jsTruthyStr st.receiver) (.toRow (st.receiver.getD "")) ++
  optRow (jsTruthyRat st.amount_algo) (.amountRow (st.amount_algo.getD 0)) ++
  optRow (jsTruthyNat st.confirmed_round) (.roundRow (st.confirmed_round.getD 0))

/-- One history entry as consumed by `TransactionHistory.tsx`. -/
structure HistoryTxView where
  type : String
  round : Nat
  receiver : Option String
  amount_algo : Option ℚ
  id : String
  deriving Repr, DecidableEq

/-- A rendered row of one transaction card in the history view. -/
inductive HistoryRow where
  | typeRow (s : String)
  | roundRow (n : Nat)
  | toRow (s : String)
  | amountRow (q : ℚ)
  deriving Repr, DecidableEq

/-- The rows of one history transaction card: type and round always, the
receiver and amount rows behind truthiness guards. -/
def renderHistoryRows (tx : HistoryTxView) : List HistoryRow :=
  [.typeRow tx.type.toUpper, .roundRow tx.round] ++
  optRow (jsTruthyStr tx.receiver) (.toRow (tx.receiver.getD "")) ++
  optRow (jsTruthyRat tx.amount_algo) (.amountRow (tx.amount_algo.getD 0))

/-! ## Concrete test data and decidability -/

/-- A valid 25-word phrase: 24 key-bearing words followed by their checksum
word. -/
def testPhrase : String :=
  String.intercalate " "
    (List.replicate 24 "w" ++ [checksumWord (List.replicate 24 "w")])

/-- A stub indexer answer of 15 raw records, newest first (rounds 15 down
to 1). -/
def stubRaw : List RawRecord :=
  (List.range 15).map fun i =>
    { id := toString i
      round := 15 - i
      sender := "S"
      receiver := "R"
      amountMicroAlgos := 1000000
      feeMicroAlgos := 1000
      note := "" }

instance (raw : List RawRecord) : Decidable (NewestFirstRaw raw) := by
  unfold NewestFirstRaw
  infer_instance

instance (recs : List TransactionRecord) : Decidable (NewestFirst recs) := by
  unfold NewestFirst
  infer_instance

/-! ## Theorems -/

/-- Membership in a guarded row list. -/
theorem mem_optRow {α : Type} {b : Bool} {r x : α} :
    x ∈ optRow b r ↔ b = true ∧ x = r := by
  cases b <;> simp [optRow]

/-- Claim C1: for every AccountState input (including total = 0), the
balance computation satisfies available = max(0, total - minBalance); in
particular the available balance returned by the balance query is never
negative. -/
theorem balance_available_never_negative (st : AccountState) :
    (computeBalance st).availableMicroAlgos =
      max 0 ((computeBalance st).totalMicroAlgos -
        (computeBalance st).minBalanceMicroAlgos) ∧
    0 ≤ (computeBalance st).availableMicroAlgos :=
  ⟨rfl, le_max_left 0 _⟩

/-- Claim C2: for every phrase whose word count is not 25 or whose checksum
word is invalid, recoverAccount fails with InvalidPhrase; the Except result
carries no Account value on this path. -/
theorem recoverAccount_invalid_phrase (phrase : String)
    (h : (phraseWords phrase).length ≠ 25 ∨
      (phraseWords phrase).getLast? ≠
        some (checksumWord ((phraseWords phrase).take 24))) :
    recoverAccount phrase = .error .InvalidPhrase := by
  unfold recoverAccount
  rcases h with h | h
  · simp [h]
  · rcases Decidable.em ((phraseWords phrase).length = 25) with h25 | h25
    · simp [h25, h]
    · simp [h25]

/-- Witness for C2: a two-word phrase is rejected with InvalidPhrase. -/
theorem recoverAccount_invalid_phrase_witness :
    recoverAccount "hello world" = .error .InvalidPhrase :=
  recoverAccount_invalid_phrase "hello world" (Or.inl (by decide))

/-- Claim C3: recovery is a deterministic function of the phrase — every
valid 25-word phrase with a correct checksum recovers to exactly the address
derived from its first 24 words, so two invocations on the same phrase yield
the same address. -/
theorem recoverAccount_deterministic (phrase : String)
    (h25 : (phraseWords phrase).length = 25)
    (hcs : (phraseWords phrase).getLast? =
      some (checksumWord ((phraseWords phrase).take 24))) :
    recoverAccount phrase =
      .ok { address := deriveAddress ((phraseWords phrase).take 24) } := by
  unfold recoverAccount
  simp [h25, hcs]

/-- Witness for C3: the concrete valid test phrase recovers to its derived
address. -/
theorem recoverAccount_deterministic_witness :
    recoverAccount testPhrase =
      .ok { address := deriveAddress ((phraseWords testPhrase).take 24) } :=
  recoverAccount_deterministic testPhrase (by decide) (by decide)

/-- Claim C4: for every TransferIntent with amount ≤ 0, the build fails with
InvalidAmount and performs zero gateway calls, whatever the gateway would
have answered — the failure happens before any network call. -/
theorem build_invalidAmount_before_network (intent : TransferIntent)
    (gp : Except SendError NetworkParams)
    (h : intent.amountMicroAlgos ≤ 0) :
    build intent gp = (.error .InvalidAmount, 0) := by
  unfold build
  simp [h]

/-- Witness for C4: a zero-amount intent fails InvalidAmount with zero
gateway calls, even against a gateway that would fail the test if called. -/
theorem build_invalidAmount_before_network_witness :
    build
        { senderPhrase := "p", receiverAddress := "R",
          amountMicroAlgos := 0, note := none }
        (.error .NetworkUnavailable) =
      (.error .InvalidAmount, 0) :=
  build_invalidAmount_before_network _ _ (by decide)

/-- Claim C5: for every raw record list (newest first, as the gateway
returns it) and every limit, history yields min(limit, available) ≤ limit
records, newest first; with limit 10 over 15 raw records this is exactly
10 records, newest first. -/
theorem history_newest_first_le_limit (raw : List RawRecord) (limit : Nat)
    (h : NewestFirstRaw raw) :
    (history raw limit).length = min limit raw.length ∧
    (history raw limit).length ≤ limit ∧
    NewestFirst (history raw limit) := by
  refine ⟨by simp [history], ?_, ?_⟩
  · simp only [history, List.length_map, List.length_take]
    exact Nat.min_le_left limit raw.length
  · unfold NewestFirst history
    refine List.Pairwise.map normalizeRecord (fun a b hab => ?_)
      (List.Pairwise.sublist (List.take_sublist limit raw) h)
    simpa [normalizeRecord] using hab

/-- Witness for C5: the 15-record newest-first stub truncates to exactly 10
records, newest first. -/
theorem history_newest_first_le_limit_witness :
    ((history stubRaw 10).length = min 10 stubRaw.length ∧
     (history stubRaw 10).length ≤ 10 ∧
     NewestFirst (history stubRaw 10)) ∧
    (history stubRaw 10).length = 10 :=
  ⟨history_newest_first_le_limit stubRaw 10 (by decide), by decide⟩

/-- The poll loop times out when every polled round answers null. -/
theorem waitLoop_timeout (poll : Nat → Option Nat) :
    ∀ fuel i, (∀ j, j < fuel → poll (i + j) = none) →
      waitLoop poll fuel i = .TimedOut := by
  intro fuel
  induction fuel with
  | zero => intro i _; rfl
  | succ n ih =>
    intro i h
    unfold waitLoop
    have h0 : poll i = none := by simpa using h 0 (Nat.succ_pos n)
    rw [h0]
    refine ih (i + 1) (fun j hj => ?_)
    have hj' : i + 1 + j = i + (j + 1) := by omega
    rw [hj']
    exact h (j + 1) (by omega)

/-- Claim C6: when no confirmation is observed within the bounded wait, the
outcome is TimedOut, and the caller is still handed the transactionId as a
success response — not an error — with confirmedRound absent, so status can
be re-queried independently later. -/
theorem timedOut_keeps_transactionId (txId : String) (poll : Nat → Option Nat)
    (maxPolls : Nat) (h : ∀ i, i < maxPolls → poll i = none) :
    waitLoop poll maxPolls 0 = .TimedOut ∧
    awaitConfirmation txId poll maxPolls =
      .ok { transactionId := txId, confirmedRound := none } := by
  have ht : waitLoop poll maxPolls 0 = .TimedOut :=
    waitLoop_timeout poll maxPolls 0 (fun j hj => by simpa using h j hj)
  refine ⟨ht, ?_⟩
  unfold awaitConfirmation
  rw [ht]

/-- Witness for C6: against a gateway stub that never reports confirmation,
a 3-poll wait times out and still hands back the transaction id with no
confirmed round. -/
theorem timedOut_keeps_transactionId_witness :
    waitLoop (fun _ => none) 3 0 = .TimedOut ∧
    awaitConfirmation "TX" (fun _ => none) 3 =
      .ok { transactionId := "TX", confirmedRound := none } :=
  timedOut_keeps_transactionId "TX" (fun _ => none) 3 (fun _ _ => rfl)

/-- Claim C7 counterexample: the status request built by the client for
transaction id "TX123" carries the id under query parameter "txid"; no
parameter named "id" is present, refuting the claim that the external
interface takes the transaction id as query parameter `id`. -/
theorem status_request_param_not_id :
    (getTransactionStatusRequest "TX123").query = [("txid", "TX123")] ∧
    ¬ ∃ v, ("id", v) ∈ (getTransactionStatusRequest "TX123").query := by
  constructor
  · rfl
  · rintro ⟨v, hv⟩
    rw [show (getTransactionStatusRequest "TX123").query =
      [("txid", "TX123")] from rfl] at hv
    simp at hv

/-- Claim C7 amended: the transaction-status interface takes the transaction
id as query parameter `txid` (URI-encoded), and the handler (modelled from
the spec) returns {confirmed, round?, sender?, receiver?, amountAlgo?},
failing with NotFound when the network has never seen the id. -/
theorem status_endpoint_contract (txid : String)
    (ledger : List TransactionRecord) :
    (getTransactionStatusRequest txid).method = "GET" ∧
    (getTransactionStatusRequest txid).path = "/transaction-status" ∧
    (getTransactionStatusRequest txid).query =
      [("txid", encodeURIComponent txid)] ∧
    ((∀ r ∈ ledger, r.id ≠ txid) →
      transactionStatus ledger txid = .error .NotFound) ∧
    (∀ r, ledger.find? (fun x => x.id == txid) = some r →
      transactionStatus ledger txid =
        .ok { confirmed := r.confirmed, confirmed_round := r.round,
              sender := some r.sender, receiver := some r.receiver,
              amount_algo := some (microToAlgo r.amountMicroAlgos) }) := by
  refine ⟨rfl, rfl, rfl, ?_, ?_⟩
  · intro hnone
    unfold transactionStatus
    have hfind : ledger.find? (fun x => x.id == txid) = none := by
      rw [List.find?_eq_none]
      intro x hx
      simpa using hnone x hx
    rw [hfind]
  · intro r hr
    unfold transactionStatus
    rw [hr]

/-- Witness for C7 amended: an empty ledger answers NotFound, and the
request for id "TX" carries it under parameter "txid". -/
theorem status_endpoint_contract_witness :
    transactionStatus [] "TX" = .error .NotFound ∧
    (getTransactionStatusRequest "TX").query = [("txid", "TX")] :=
  ⟨(status_endpoint_contract "TX" []).2.2.2.1 (by simp),
   (status_endpoint_contract "TX" []).2.2.1⟩

/-- Claim C9: after a send-transaction response with success = true and a
truthy transaction_id, handleSend clears all four form fields (the sender
mnemonic, receiver address, amount and note become empty) and stores the
result; on any other response the fields are left unchanged, no result is
stored, and a nonempty error message is shown instead. -/
theorem handleSend_clears_form_on_success (form : SendFormState)
    (resp : SendApiResponse) :
    ((resp.success = true ∧ jsTruthyStr resp.transaction_id = true) →
      (handleSendResponse form resp).form = emptySendForm ∧
      (handleSendResponse form resp).result =
        some { transaction_id := resp.transaction_id.getD ""
               confirmed_round := resp.confirmed_round }) ∧
    (¬ (resp.success = true ∧ jsTruthyStr resp.transaction_id = true) →
      (handleSendResponse form resp).form = form ∧
      (handleSendResponse form resp).result = none ∧
      (handleSendResponse form resp).error ≠ "") := by
  constructor
  · rintro ⟨hs, ht⟩
    simp [handleSendResponse, hs, ht]
  · intro hn
    have hcond : (resp.success && jsTruthyStr resp.transaction_id) = false := by
      cases hs : resp.success with
      | false => simp
      | true =>
        cases ht : jsTruthyStr resp.transaction_id with
        | false => simp
        | true => exact absurd ⟨hs, ht⟩ hn
    refine ⟨by simp [handleSendResponse, hcond],
            by simp [handleSendResponse, hcond], ?_⟩
    simp only [handleSendResponse, hcond, Bool.false_eq_true, if_false]
    cases hm : resp.message with
    | none => decide
    | some m =>
      rcases Decidable.em (m = "") with hme | hme
      · simp [hme]
      · simp [hme]

/-- Witness for C9: a success response clears a populated form; a failure
response leaves it untouched. -/
theorem handleSend_clears_form_on_success_witness :
    (handleSendResponse
        { senderMnemonic := "m", receiverAddress := "r",
          amount := "1", note := "n" }
        { success := true, transaction_id := some "TX",
          confirmed_round := none, message := none }).form = emptySendForm ∧
    (handleSendResponse
        { senderMnemonic := "m", receiverAddress := "r",
          amount := "1", note := "n" }
        { success := false, transaction_id := none,
          confirmed_round := none, message := none }).form =
      { senderMnemonic := "m", receiverAddress := "r",
        amount := "1", note := "n" } :=
  ⟨((handleSend_clears_form_on_success _ _).1 (by decide)).1,
   ((handleSend_clears_form_on_success _ _).2 (by decide)).1⟩

/-- Claim C10 counterexample: a status response with confirmed = true and
confirmed_round = 0 renders the header "✅ Confirmed", not "⏳ Pending",
even though its round is zero — the Pending header is driven by the
confirmed flag alone, not by the round, refuting the claim that a record
whose confirmed_round is 0 or absent is shown as Pending. -/
theorem statusHeader_counterexample :
    renderStatusHeader
        { confirmed := true, confirmed_round := some 0, sender := none,
          receiver := none, amount_algo := none } = "✅ Confirmed" ∧
    renderStatusHeader
        { confirmed := true, confirmed_round := some 0, sender := none,
          receiver := none, amount_algo := none } ≠ "⏳ Pending" := by
  exact ⟨rfl, by decide⟩

/-- Claim C10 amended: the status view renders its sender, receiver, amount
and round rows only when their values are truthy — amount_algo = 0 and
confirmed_round = 0 are rendered identically to absent values — while the
⏳ Pending / ✅ Confirmed header is determined solely by the confirmed
flag; the history view guards its receiver and amount rows the same way but
always renders the type and round rows. -/
theorem render_truthiness_guards (st : StatusResponse) (tx : HistoryTxView) :
    renderStatusHeader st =
      (if st.confirmed then "✅ Confirmed" else "⏳ Pending") ∧
    (jsTruthyRat st.amount_algo = false →
      ∀ q, StatusRow.amountRow q ∉ renderStatusRows st) ∧
    (jsTruthyNat st.confirmed_round = false →
      ∀ n, StatusRow.roundRow n ∉ renderStatusRows st) ∧
    renderStatusRows { st with amount_algo := some 0 } =
      renderStatusRows { st with amount_algo := none } ∧
    renderStatusRows { st with confirmed_round := some 0 } =
      renderStatusRows { st with confirmed_round := none } ∧
    (jsTruthyRat tx.amount_algo = false →
      ∀ q, HistoryRow.amountRow q ∉ renderHistoryRows tx) ∧
    HistoryRow.roundRow tx.round ∈ renderHistoryRows tx := by
  refine ⟨rfl, ?_, ?_, ?_, ?_, ?_, ?_⟩
  · intro h q
    simp [renderStatusRows, mem_optRow, h]
  · intro h n
    simp [renderStatusRows, mem_optRow, h]
  · have h0 : jsTruthyRat (some 0) = false := by decide
    simp [renderStatusRows, h0, jsTruthyRat, optRow]
  · have h0 : jsTruthyNat (some 0) = false := by decide
    simp [renderStatusRows, h0, jsTruthyNat, optRow]
  · intro h q
    simp [renderHistoryRows, mem_optRow, h]
  · simp [renderHistoryRows, mem_optRow]

/-- Witness for C10 amended: an all-absent status response renders no amount
row, and a history entry at round 7 always shows its round row. -/
theorem render_truthiness_guards_witness :
    StatusRow.amountRow 0 ∉
      renderStatusRows
        { confirmed := false, confirmed_round := none, sender := none,
          receiver := none, amount_algo := none } ∧
    HistoryRow.roundRow 7 ∈
      renderHistoryRows
        { type := "pay", round := 7, receiver := none, amount_algo := none,
          id := "T" } :=
  ⟨(render_truthiness_guards
      { confirmed := false, confirmed_round := none, sender := none,
        receiver := none, amount_algo := none }
      { type := "pay", round := 7, receiver := none, amount_algo := none,
        id := "T" }).2.1 (by decide) 0,
   (render_truthiness_guards
      { confirmed := false, confirmed_round := none, sender := none,
        receiver := none, amount_algo := none }
      { type := "pay", round := 7, receiver := none, amount_algo := none,
        id := "T" }).2.2.2.2.2.2⟩

end AlgorandPlayground
